import Mathlib

/-!
Verification development for the JetStream error taxonomy of the nats.go
client (file src/jsv2/jetstream/errors.go).

The Go code defines:
  - `APIError` — a broker-reported error: `Code` (HTTP-like status, Go int),
    `ErrorCode` (sub-code, Go uint16), `Description` (string);
  - `jsError` — a client-side error: an optional embedded `*APIError` plus a
    local message; it implements the `JetStreamError` interface
    (`APIError() *APIError` + `error`);
  - a registry of sentinel error values, split into broker-reported sentinels
    (a `jsError` embedding an `APIError`) and client-only sentinels
    (a `jsError` with message only) — except `ErrEndOfData`, which is built
    with the standard `errors.New` and is a plain error value;
  - `(*APIError).Is`, which makes matching via the standard library
    `errors.Is` compare `ErrorCode` sub-codes only.

Errors in Go are interface values; we embed the closed set of error shapes
relevant to this file as the inductive `GoError`, and the standard-library
chain-walking functions `errors.As` (specialised to the `*APIError` target)
and `errors.Is` as Lean functions over it.
-/

/-- ErrorCode represents the `err_code` returned in responses from the
JetStream API. It is `uint16` in Go; every constant in the file is far below
2^16 and no arithmetic is performed on it, so it is embedded as `Nat`. -/
abbrev ErrorCode := Nat

/-- APIError is included in all API responses if there was an error
(errors.go lines 34–39). Field order follows the Go struct:
`Code` (HTTP-like status, Go int), `ErrorCode` (sub-code), `Description`. -/
structure APIError where
  Code : Int
  ErrorCode : ErrorCode
  Description : String
deriving DecidableEq, Repr

/-- jsError (errors.go lines 29–32): an optional embedded broker `APIError`
(`nil` pointer in Go becomes `none`) and a client-side message. -/
structure jsError where
  apiErr : Option APIError
  message : String
deriving DecidableEq, Repr

/-- The closed set of Go error shapes the claims quantify over:
  - `api e` — a bare `*APIError` value;
  - `js e` — a `*jsError` value (every sentinel except `ErrEndOfData`);
  - `basic msg` — an error built with `errors.New`, such as `ErrEndOfData`:
    it carries only a message, has no `Unwrap` and no `APIError()` method;
  - `wrapf msg inner` — a hypothetical higher-layer wrapper in the style of
    `fmt.Errorf("...: %w", inner)`: its `Unwrap` returns `inner`.
-/
inductive GoError where
  | api (e : APIError)
  | js (e : jsError)
  | basic (msg : String)
  | wrapf (msg : String) (inner : GoError)
deriving DecidableEq, Repr

/- Error-code constants, errors.go lines 45–59. -/

def JSErrCodeJetStreamNotEnabledForAccount : ErrorCode := 10039

def JSErrCodeJetStreamNotEnabled : ErrorCode := 10076

def JSErrCodeStreamNotFound : ErrorCode := 10059

def JSErrCodeStreamNameInUse : ErrorCode := 10058

def JSErrCodeConsumerNotFound : ErrorCode := 10014

def JSErrCodeConsumerNameExists : ErrorCode := 10013

def JSErrCodeConsumerAlreadyExists : ErrorCode := 10105

def JSErrCodeMessageNotFound : ErrorCode := 10037

def JSErrCodeBadRequest : ErrorCode := 10003

/- API-error (broker-reported) sentinels, errors.go lines 61–83.
Each is `&jsError{apiErr: &APIError{...}}`; the `message` field is left at
its zero value `""`. -/

/-- ErrJetStreamNotEnabled (errors.go line 65). -/
def ErrJetStreamNotEnabled : GoError :=
  .js ⟨some ⟨503, JSErrCodeJetStreamNotEnabled, "jetstream not enabled"⟩, ""⟩

/-- ErrJetStreamNotEnabledForAccount (errors.go line 68). -/
def ErrJetStreamNotEnabledForAccount : GoError :=
  .js ⟨some ⟨503, JSErrCodeJetStreamNotEnabledForAccount, "jetstream not enabled for account"⟩, ""⟩

/-- ErrStreamNotFound (errors.go line 71). -/
def ErrStreamNotFound : GoError :=
  .js ⟨some ⟨404, JSErrCodeStreamNotFound, "stream not found"⟩, ""⟩

/-- ErrStreamNameAlreadyInUse (errors.go line 74). -/
def ErrStreamNameAlreadyInUse : GoError :=
  .js ⟨some ⟨400, JSErrCodeStreamNameInUse, "stream name already in use"⟩, ""⟩

/-- ErrConsumerNotFound (errors.go line 77). -/
def ErrConsumerNotFound : GoError :=
  .js ⟨some ⟨404, JSErrCodeConsumerNotFound, "consumer not found"⟩, ""⟩

/-- ErrMsgNotFound (errors.go line 80). -/
def ErrMsgNotFound : GoError :=
  .js ⟨some ⟨404, JSErrCodeMessageNotFound, "message not found"⟩, ""⟩

/-- ErrBadRequest (errors.go line 83). -/
def ErrBadRequest : GoError :=
  .js ⟨some ⟨400, JSErrCodeBadRequest, "bad request"⟩, ""⟩

/- Client error sentinels, errors.go lines 85–143. All are
`&jsError{message: ...}` (apiErr left nil) except `ErrEndOfData`, which is
`errors.New("nats: end of data reached")`. -/

def ErrConsumerNameAlreadyInUse : GoError := .js ⟨none, "consumer name already in use"⟩

def ErrInvalidJSAck : GoError := .js ⟨none, "invalid jetstream publish response"⟩

def ErrStreamNameRequired : GoError := .js ⟨none, "stream name is required"⟩

def ErrConsumerNameRequired : GoError := .js ⟨none, "consumer name is required"⟩

def ErrMsgAlreadyAckd : GoError := .js ⟨none, "message was already acknowledged"⟩

def ErrNoStreamResponse : GoError := .js ⟨none, "no response from stream"⟩

def ErrNotJSMessage : GoError := .js ⟨none, "not a jetstream message"⟩

def ErrInvalidStreamName : GoError := .js ⟨none, "invalid stream name"⟩

def ErrInvalidConsumerName : GoError := .js ⟨none, "invalid consumer name"⟩

def ErrNoMessages : GoError := .js ⟨none, "no messages"⟩

def ErrHandlerRequired : GoError := .js ⟨none, "handler cannot be empty"⟩

/-- ErrEndOfData (errors.go line 121) is `errors.New("nats: end of data reached")`:
a plain standard-library error, not a `jsError`. -/
def ErrEndOfData : GoError := .basic "nats: end of data reached"

def ErrNoHeartbeat : GoError := .js ⟨none, "no heartbeat received, canceling subscription"⟩

def ErrConsumerHasActiveSubscription : GoError := .js ⟨none, "consumer has active subscription"⟩

def ErrMsgNotBound : GoError := .js ⟨none, "message is not bound to subscription/connection"⟩

def ErrMsgNoReply : GoError := .js ⟨none, "message does not have a reply"⟩

def ErrMsgDeleteUnsuccessful : GoError := .js ⟨none, "message deletion unsuccessful"⟩

def ErrAsyncPublishReplySubjectSet : GoError := .js ⟨none, "reply subject should be empty"⟩

def ErrTooManyStalledMsgs : GoError := .js ⟨none, "stalled with too many outstanding async published messages"⟩

/-- The broker-reported sentinels of the registry, in source order
(errors.go lines 61–83). -/
def brokerSentinels : List GoError :=
  [ErrJetStreamNotEnabled, ErrJetStreamNotEnabledForAccount, ErrStreamNotFound,
   ErrStreamNameAlreadyInUse, ErrConsumerNotFound, ErrMsgNotFound, ErrBadRequest]

/-- The client-only sentinel family as enumerated by the spec, in source
order (errors.go lines 85–143; `ErrMsgDeleteUnsuccessful` is in the source
but not in the spec's enumeration, so it is not listed here). -/
def clientSentinels : List GoError :=
  [ErrConsumerNameAlreadyInUse, ErrInvalidJSAck, ErrStreamNameRequired,
   ErrConsumerNameRequired, ErrMsgAlreadyAckd, ErrNoStreamResponse,
   ErrNotJSMessage, ErrInvalidStreamName, ErrInvalidConsumerName,
   ErrNoMessages, ErrHandlerRequired, ErrEndOfData, ErrNoHeartbeat,
   ErrConsumerHasActiveSubscription, ErrMsgNotBound, ErrMsgNoReply,
   ErrAsyncPublishReplySubjectSet, ErrTooManyStalledMsgs]

/-- `func (e *APIError) Error() string` (errors.go lines 146–148):
`fmt.Sprintf("nats: API error %d: %s", e.ErrorCode, e.Description)`. -/
def APIError.Error (e : APIError) : String :=
  "nats: API error " ++ toString e.ErrorCode ++ ": " ++ e.Description

/-- `func (err *jsError) APIError() *APIError` (errors.go lines 169–171):
returns the embedded pointer, which is `nil` (`none`) for pure client errors. -/
def jsError.APIError (e : jsError) : Option APIError :=
  e.apiErr

/-- `func (err *jsError) Error() string` (errors.go lines 173–178):
if `err.apiErr != nil && err.apiErr.Description != ""` it delegates to the
embedded APIError's `Error()`, otherwise `fmt.Sprintf("nats: %s", err.message)`. -/
def jsError.Error (e : jsError) : String :=
  match e.apiErr with
  | some a => if a.Description ≠ "" then a.Error else "nats: " ++ e.message
  | none => "nats: " ++ e.message

/-- `func (err *jsError) Unwrap() error` (errors.go lines 180–186): returns
`nil` when no APIError is embedded, otherwise the embedded `*APIError`
(which, as a `GoError`, is the bare shape `.api a`). -/
def jsError.Unwrap (e : jsError) : Option GoError :=
  match e.apiErr with
  | none => none
  | some a => some (.api a)

/-- The generic `Unwrap` step used by the standard library chain walk:
`*jsError` has the `Unwrap` method above, `wrapf` unwraps to its wrapped
error, and `*APIError` and `errors.New` values have no `Unwrap` method. -/
def goUnwrap : GoError → Option GoError
  | .api _ => none
  | .js e => e.Unwrap
  | .basic _ => none
  | .wrapf _ inner => some inner

/-- Standard library `errors.As(err, &target)` specialised to the target type
`*APIError`: walk `err`'s unwrap chain and return the first `*APIError`
found. For a `.js` node the type assertion fails and the walk continues at
`goUnwrap`, i.e. at `.api a` when `e.apiErr = some a` (yielding `some a`) and
stops when `e.apiErr = none`; both cases together are exactly `e.apiErr`. -/
def errorsAsAPIError : GoError → Option APIError
  | .api a => some a
  | .js e => e.apiErr
  | .basic _ => none
  | .wrapf _ inner => errorsAsAPIError inner

/-- `func (e *APIError) Is(err error) bool` (errors.go lines 156–167). The
receiver is an `Option` because Go methods on pointer receivers can be
invoked on `nil`, and the method starts with a `nil`-receiver guard. It then
runs `errors.As(err, &aerr)` and compares `ErrorCode` sub-codes. -/
def APIError.Is (e : Option APIError) (err : GoError) : Bool :=
  match e with
  | none => false
  | some e =>
    match errorsAsAPIError err with
    | none => false
    | some aerr => e.ErrorCode == aerr.ErrorCode

/-- The `x.Is(target)` probe of the standard library `errors.Is` loop: of the
shapes in `GoError`, only `*APIError` defines an `Is` method. -/
def nodeIs (node target : GoError) : Bool :=
  match node with
  | .api a => APIError.Is (some a) target
  | _ => false

/-- Standard library `errors.Is(err, target)`: at each node of `err`'s unwrap
chain, first test equality with `target`, then the node's own `Is` method,
then follow `goUnwrap`. Go compares interface values (pointer equality for
these pointer-shaped errors); the embedding uses structural equality, which
can only differ by identifying structurally equal distinct allocations — and
structural equality of two `jsError` nodes forces equal embedded sub-codes,
so every theorem below is insensitive to the difference. The chain from a
`.js` node with an embedded APIError has exactly one further node `.api a`
(whose own unwrap is `none`), inlined here so the recursion is structural. -/
def errorsIs : GoError → GoError → Bool
  | err@(.js ⟨some a, _⟩), target =>
    if err = target then true
    else if nodeIs err target then true
    else if GoError.api a = target then true
    else nodeIs (GoError.api a) target
  | err@(.wrapf _ inner), target =>
    if err = target then true
    else if nodeIs err target then true
    else errorsIs inner target
  | err, target =>
    -- `.api`, `.basic` and `.js ⟨none, _⟩` nodes: `goUnwrap` is `none`,
    -- so the loop stops after the two tests on the node itself.
    if err = target then true
    else nodeIs err target

/-- A `jsError` with no embedded APIError: the shape of a client-only
sentinel ("carrying only a message"). -/
def isClientOnly : GoError → Bool
  | .js e => e.apiErr.isNone
  | _ => false

/-- Whether the value implements the `JetStreamError` interface (the spec's
FallibleResult capability): `*APIError` and `*jsError` have the
`APIError() *APIError` method; `errors.New` values do not. -/
def hasAPIErrorMethod : GoError → Bool
  | .api _ => true
  | .js _ => true
  | _ => false

/-- The sub-code visible through the matching protocol: the `ErrorCode` of
the first APIError in the unwrap chain, if any. -/
def chainSubCode (e : GoError) : Option ErrorCode :=
  (errorsAsAPIError e).map (fun a => a.ErrorCode)

/-! ## Theorems -/

/-- One chain-walk equation used by the wrapped-error claim: a wrapper around
a `jsError` embedding APIError `a`, matched against a target `jsError`
embedding APIError `t`, succeeds exactly when the two sub-codes agree. -/
theorem errorsIs_wrapf_js_target_js (o m mt : String) (a t : APIError) :
    errorsIs (.wrapf o (.js ⟨some a, m⟩)) (.js ⟨some t, mt⟩) = true ↔
      a.ErrorCode = t.ErrorCode := by
  by_cases hc : a.ErrorCode = t.ErrorCode
  · simp [errorsIs, nodeIs, APIError.Is, errorsAsAPIError, hc]
  · have ha : a ≠ t := fun h => hc (by rw [h])
    simp [errorsIs, nodeIs, APIError.Is, errorsAsAPIError, hc, ha]

/-- C1: for every broker-reported sentinel and every dynamically constructed
APIError whose sub-code equals the sentinel's, `errors.Is` matching of the
dynamic error against the sentinel returns true, whatever the dynamic
error's status code and description are. -/
theorem c1_dynamic_matches_sentinel_by_subcode
    (s : GoError) (hs : s ∈ brokerSentinels) (a : APIError)
    (h : chainSubCode s = some a.ErrorCode) :
    errorsIs (GoError.api a) s = true := by
  fin_cases hs <;>
    simp_all [chainSubCode, errorsAsAPIError, errorsIs, nodeIs, APIError.Is,
      ErrJetStreamNotEnabled, ErrJetStreamNotEnabledForAccount, ErrStreamNotFound,
      ErrStreamNameAlreadyInUse, ErrConsumerNotFound, ErrMsgNotFound, ErrBadRequest,
      JSErrCodeJetStreamNotEnabled, JSErrCodeJetStreamNotEnabledForAccount,
      JSErrCodeStreamNotFound, JSErrCodeStreamNameInUse, JSErrCodeConsumerNotFound,
      JSErrCodeMessageNotFound, JSErrCodeBadRequest]

/-- C1 witness: an APIError with status 500 (not the sentinel's 404),
sub-code 10059 and description "stream not found: xyz" matches the
stream-not-found sentinel. -/
theorem c1_witness :
    ErrStreamNotFound ∈ brokerSentinels ∧
    chainSubCode ErrStreamNotFound = some 10059 ∧
    errorsIs (GoError.api ⟨500, 10059, "stream not found: xyz"⟩) ErrStreamNotFound = true :=
  ⟨by decide, by decide,
    c1_dynamic_matches_sentinel_by_subcode ErrStreamNotFound (by decide)
      ⟨500, 10059, "stream not found: xyz"⟩ (by decide)⟩

/-- C2: an error wrapping a client jsError that embeds an APIError — the
embedded broker error sits at depth two of the unwrap chain — matches a
broker-reported sentinel via `errors.Is` iff the embedded APIError's
sub-code equals the sentinel's. -/
theorem c2_wrapped_two_deep_matches_iff_subcode_eq
    (o m : String) (a : APIError) (s : GoError) (hs : s ∈ brokerSentinels) :
    errorsIs (.wrapf o (.js ⟨some a, m⟩)) s = true ↔
      chainSubCode s = some a.ErrorCode := by
  have key : ∀ (t : APIError) (mt : String),
      errorsIs (.wrapf o (.js ⟨some a, m⟩)) (.js ⟨some t, mt⟩) = true ↔
        chainSubCode (.js ⟨some t, mt⟩) = some a.ErrorCode := by
    intro t mt
    rw [errorsIs_wrapf_js_target_js,
      show chainSubCode (.js ⟨some t, mt⟩) = some t.ErrorCode from rfl]
    constructor
    · intro h
      rw [h]
    · intro h
      exact (Option.some.inj h).symm
  fin_cases hs <;> exact key _ _

/-- C2 witness: a wrapper around a client error embedding a 10014 APIError
with unrelated status and text matches the consumer-not-found sentinel. -/
theorem c2_witness :
    errorsIs
      (.wrapf "request failed"
        (.js ⟨some ⟨500, 10014, "completely different text"⟩, "no response from stream"⟩))
      ErrConsumerNotFound = true :=
  (c2_wrapped_two_deep_matches_iff_subcode_eq "request failed" "no response from stream"
      ⟨500, 10014, "completely different text"⟩ ErrConsumerNotFound (by decide)).mpr
    (by decide)

/-- C3: formatting an APIError with status 404, sub-code 10059 and
description "stream not found" yields exactly
"nats: API error 10059: stream not found" — the sub-code is shown, not the
status code. -/
theorem c3_describe_shows_subcode_not_status :
    APIError.Error ⟨404, JSErrCodeStreamNotFound, "stream not found"⟩ =
      "nats: API error 10059: stream not found" := by decide

/-- C4 counterexample: the registry holds no broker sentinel whose visible
sub-code is 10013 (consumer-name-exists) or 10105 (consumer-already-exists);
those two codes exist only as constants, so the claimed nine sentinels are
in fact seven. -/
theorem c4_counterexample :
    (brokerSentinels.map chainSubCode).contains (some JSErrCodeConsumerNameExists) = false ∧
    (brokerSentinels.map chainSubCode).contains (some JSErrCodeConsumerAlreadyExists) = false ∧
    brokerSentinels.length = 7 := by decide

/-- C4 amended: the sentinel registry contains broker-reported sentinels for
exactly seven names — jetstream-not-enabled, jetstream-not-enabled-for-account,
stream-not-found, stream-name-in-use, consumer-not-found, message-not-found,
bad-request — each carrying a distinct sub-code and a default status and
description; consumer-name-exists (10013) and consumer-already-exists (10105)
are declared as error-code constants but have no sentinel value. -/
theorem c4_amended_seven_broker_sentinels :
    brokerSentinels.map chainSubCode =
      [some JSErrCodeJetStreamNotEnabled, some JSErrCodeJetStreamNotEnabledForAccount,
       some JSErrCodeStreamNotFound, some JSErrCodeStreamNameInUse,
       some JSErrCodeConsumerNotFound, some JSErrCodeMessageNotFound,
       some JSErrCodeBadRequest] ∧
    (brokerSentinels.map chainSubCode).Pairwise (· ≠ ·) ∧
    (brokerSentinels.all fun s =>
      match errorsAsAPIError s with
      | some a => decide (a.Description ≠ "") && decide (a.Code ≠ 0)
      | none => false) = true ∧
    JSErrCodeConsumerNameExists = 10013 ∧
    JSErrCodeConsumerAlreadyExists = 10105 := by decide

/-- C5 counterexample: end-of-data is in the spec's client-only family, yet
it is not a client jsError carrying only a message and it does not implement
the JetStreamError capability (it is a bare `errors.New` value). -/
theorem c5_counterexample :
    ErrEndOfData ∈ clientSentinels ∧
    isClientOnly ErrEndOfData = false ∧
    hasAPIErrorMethod ErrEndOfData = false := by decide

/-- C5 amended: every sentinel of the client-only family except end-of-data
is a client jsError carrying only a message (no embedded APIError) and
implements the JetStreamError capability; end-of-data is a plain error built
with errors.New, carrying only the message "nats: end of data reached". -/
theorem c5_amended_client_family :
    (clientSentinels.filter fun s => decide (s ≠ ErrEndOfData)).all
      (fun s => isClientOnly s && hasAPIErrorMethod s) = true ∧
    ErrEndOfData = GoError.basic "nats: end of data reached" := by decide

/-- C6: a jsError with no embedded APIError formats as "nats: " followed by
its local message; with an embedded APIError whose description is non-empty
it delegates formatting to the embedded APIError. -/
theorem c6_js_error_describe (m : String) (a : APIError) :
    jsError.Error ⟨none, m⟩ = "nats: " ++ m ∧
    (a.Description ≠ "" → jsError.Error ⟨some a, m⟩ = APIError.Error a) := by
  refine ⟨rfl, fun h => ?_⟩
  simp only [jsError.Error]
  exact if_pos h

/-- C6 witness: the composite of the stream-not-found APIError with a local
message formats as the embedded APIError does. -/
theorem c6_witness :
    jsError.Error ⟨some ⟨404, JSErrCodeStreamNotFound, "stream not found"⟩, "ctx"⟩ =
      APIError.Error ⟨404, JSErrCodeStreamNotFound, "stream not found"⟩ :=
  (c6_js_error_describe "ctx" ⟨404, JSErrCodeStreamNotFound, "stream not found"⟩).2
    (by decide)

/-- C7: a jsError with no embedded APIError reports none from its APIError
method and none from Unwrap, terminating the unwrap chain; with an embedded
APIError both return that APIError. -/
theorem c7_as_broker_error_and_unwrap (m : String) (a : APIError) :
    jsError.APIError ⟨none, m⟩ = none ∧
    jsError.Unwrap ⟨none, m⟩ = none ∧
    jsError.APIError ⟨some a, m⟩ = some a ∧
    jsError.Unwrap ⟨some a, m⟩ = some (GoError.api a) :=
  ⟨rfl, rfl, rfl, rfl⟩

/-- C8: the Is method on a nil APIError receiver returns false for every
candidate error (and, the receiver check coming first, never dereferences
the candidate). -/
theorem c8_nil_receiver_never_matches (err : GoError) : APIError.Is none err = false :=
  rfl

/-- C9: across distinct broker-reported sentinels of the registry, the
visible sub-codes are pairwise distinct. -/
theorem c9_broker_subcodes_pairwise_distinct :
    ∀ s ∈ brokerSentinels, ∀ t ∈ brokerSentinels,
      s ≠ t → chainSubCode s ≠ chainSubCode t := by decide

/-- C9 witness: stream-not-found and bad-request are distinct sentinels with
distinct sub-codes. -/
theorem c9_witness :
    chainSubCode ErrStreamNotFound ≠ chainSubCode ErrBadRequest :=
  c9_broker_subcodes_pairwise_distinct ErrStreamNotFound (by decide) ErrBadRequest
    (by decide) (by decide)

/-- C10: a jsError whose embedded APIError has an empty description formats
as "nats: " followed by the local message, whatever the embedded status code
and sub-code are. -/
theorem c10_empty_description_falls_back (m : String) (a : APIError)
    (h : a.Description = "") :
    jsError.Error ⟨some a, m⟩ = "nats: " ++ m := by
  simp [jsError.Error, h]

/-- C10 witness: a composite embedding a description-less 404/10059 APIError
formats from the local message. -/
theorem c10_witness :
    jsError.Error ⟨some ⟨404, JSErrCodeStreamNotFound, ""⟩, "local"⟩ = "nats: " ++ "local" :=
  c10_empty_description_falls_back "local" ⟨404, JSErrCodeStreamNotFound, ""⟩ rfl
